import Mathlib

/-!
Shallow embedding of the request-forwarding and telemetry pipeline of the
multitenant-opentelemetry-example repository.

Embedded source files:
* `apps/demo-app/sender/app.py`   — `HTTPServerMetricsMiddleware.dispatch`, `send_message`
* `apps/demo-app/receiver/app.py` — `HTTPServerMetricsMiddleware.dispatch`, `process_request`,
  `simulate_database_call`
* `demo-app/sender/app.py`        — the legacy duplicate `send_message` variant

Modelling conventions: Python floats that only feed ordering comparisons
(`ERROR_RATE`, `random.random()`, elapsed wall-clock times) are modelled as `Rat`;
JSON values are the inductive `J`; a handler that raises `HTTPException(code, detail)`
is modelled by an outcome record carrying `httpStatus` and `detail`; OpenTelemetry
spans are records of name, status, attributes and the number of `record_exception`
calls.  Non-deterministic inputs (the random draw, the upstream HTTP outcome, the
simulated database row count, wall-clock durations) are explicit parameters.
-/

/-- JSON values, as produced and consumed by the two FastAPI apps.
Numbers carry a `Rat` so both integral counts and float durations embed. -/
inductive J where
  | null
  | bool (b : Bool)
  | num (q : Rat)
  | str (s : String)
  | arr (items : List J)
  | obj (fields : List (String × J))
deriving Repr

/-- Dictionary lookup: `d[k]` on a JSON object, `none` otherwise (Python `dict.get`). -/
def J.get : J → String → Option J
  | .obj fs, k => (fs.find? (fun p => p.1 = k)).map (fun p => p.2)
  | _, _ => none

/-- The key list of a JSON object, in insertion order. -/
def J.keys : J → List String
  | .obj fs => fs.map (fun p => p.1)
  | _ => []

/-- OpenTelemetry span status: unset (the default), OK, or ERROR with a message. -/
inductive SpanStatus where
  | unset
  | ok
  | error (msg : String)
deriving Repr

/-- Is this status an ERROR status? -/
def SpanStatus.isErr : SpanStatus → Bool
  | .error _ => true
  | _ => false

/-- Is this status the OK status? -/
def SpanStatus.isOk : SpanStatus → Bool
  | .ok => true
  | _ => false

/-- A recorded span: name, final status, attributes set on it, and how many
times `record_exception` was called on it. -/
structure SpanRec where
  name : String
  status : SpanStatus
  attrs : List (String × J)
  exceptions : Nat
deriving Repr

/-- `hs.status.isErr` lifted to an optional span (`false` when the span was never opened). -/
def spanIsError (o : Option SpanRec) : Bool :=
  match o with
  | some sp => sp.status.isErr
  | none => false

/-- `hs.status.isOk` lifted to an optional span (`false` when the span was never opened). -/
def spanIsOk (o : Option SpanRec) : Bool :=
  match o with
  | some sp => sp.status.isOk
  | none => false

/-- Number of `record_exception` calls on an optional span (0 when never opened). -/
def spanExcCount (o : Option SpanRec) : Nat :=
  match o with
  | some sp => sp.exceptions
  | none => 0

/-- Observable events of a handler run, used to state ordering properties:
the `artificial_latency` span, the `random.random() < ERROR_RATE` draw
(with its outcome), the outbound POST to the receiver, and the final response. -/
inductive Ev where
  | latencySpan (ms : Nat)
  | errorCheck (tripped : Bool)
  | outboundPost
  | respond (status : Nat)
deriving Repr, DecidableEq

/-- Sender configuration (environment variables of `apps/demo-app/sender/app.py`). -/
structure SenderCfg where
  serviceName : String
  tenantId : String
  errorRate : Rat
  latencyMs : Nat
deriving Repr

/-- Outcome of the outbound `client.post` to the receiver, as seen by the sender:
either a transport-level `httpx.HTTPError` (connection refused, timeout, ...)
carrying its message, or an HTTP response with a status code, the JSON parse of
its body (`none` when `response.json()` raises), and the byte length of the body. -/
inductive UpstreamOutcome where
  | transportError (msg : String)
  | response (status : Nat) (bodyJson : Option J) (bodyBytes : Nat)

/-- `httpx.Response.is_success`, the condition under which `raise_for_status`
does not raise: 200 ≤ status < 300. -/
def is2xx (s : Nat) : Bool :=
  200 ≤ s && s < 300

/-- `data.get("request_id", "unknown") if data else "unknown"` (sender line 322). -/
def requestIdOf (data : Option J) : J :=
  match data with
  | some d => (d.get "request_id").getD (.str "unknown")
  | none => .str "unknown"

/-- The forwarded payload built at sender lines 396-401:
`{request_id, tenant_id, sender, data or {}}`. -/
def forwardPayload (cfg : SenderCfg) (data : Option J) : J :=
  .obj [("request_id", requestIdOf data),
        ("tenant_id", .str cfg.tenantId),
        ("sender", .str cfg.serviceName),
        ("data", data.getD (.obj []))]

/-- The outbound call the sender issues: the serialized payload, the
`httpx.AsyncClient(timeout=10.0)` timeout, and how many times the payload was
explicitly serialized (`json.dumps` at line 404 runs once per call). -/
structure OutboundCall where
  payload : J
  timeoutSeconds : Nat
  serializations : Nat
deriving Repr

/-- Everything observable about one `POST /send` request handled by
`send_message` of `apps/demo-app/sender/app.py`: the HTTP status and `detail`
of the response (detail is set when an `HTTPException` was raised), the success
JSON body, the server span and the `call_receiver` span, the outbound call (if
issued), the client-metric up-down-counter deltas and the status attribute of
the client duration record, and the ordered event trace. -/
structure SendOutcome where
  httpStatus : Nat
  detail : Option String
  body : Option J
  serverSpan : SpanRec
  callReceiver : Option SpanRec
  outbound : Option OutboundCall
  clientAdds : List Int
  clientDurStatus : Option Nat
  events : List Ev
deriving Repr

/-- Models `str(e)` for the `httpx.HTTPStatusError` raised by
`response.raise_for_status()` on a non-2xx status. -/
def statusErrorText (s : Nat) : String :=
  "HTTP status error " ++ toString s ++ " for url /process"

/-- Models `str(json_error)` for the `json.JSONDecodeError` raised by
`response.json()` on an unparseable body. -/
def jsonDecodeErrText : String :=
  "Expecting value: line 1 column 1 (char 0)"

/-- The error message built at sender line 432. -/
def invalidJsonMsg : String :=
  "Invalid JSON response from receiver: " ++ jsonDecodeErrText

/-- `send_message` of `apps/demo-app/sender/app.py` (lines 308-534).
Inputs: the configuration, the value of `random.random()`, the optional JSON
request body, and the outcome of the outbound call (consulted only when the
call is actually issued). -/
def sendMessage (cfg : SenderCfg) (r : Rat) (data : Option J) (upstream : UpstreamOutcome) :
    SendOutcome :=
  -- lines 316-320: custom attributes on the server span
  let server0 : SpanRec :=
    { name := "POST /send", status := .unset,
      attrs := [("app.endpoint.type", .str "api"), ("app.tenant.id", .str cfg.tenantId)],
      exceptions := 0 }
  -- lines 333-337: artificial latency span, before the error check
  let latEvents : List Ev :=
    if 0 < cfg.latencyMs then [.latencySpan cfg.latencyMs] else []
  -- lines 339-353: simulated error check
  if r < cfg.errorRate then
    { httpStatus := 500, detail := some "Simulated error", body := none,
      serverSpan :=
        { server0 with
          status := .error "Simulated error",
          attrs := server0.attrs ++
            [("error.type", .str "simulated_error"),
             ("error.message", .str "Simulated error for testing")] },
      callReceiver := none, outbound := none,
      clientAdds := [], clientDurStatus := none,
      events := latEvents ++ [.errorCheck true, .respond 500] }
  else
    -- lines 357-361: the call_receiver span and its attributes
    let cr0 : SpanRec :=
      { name := "call_receiver", status := .unset,
        attrs := [("app.tenant.id", .str cfg.tenantId),
                  ("app.request.id", requestIdOf data),
                  ("peer.service", .str "receiver-service")],
        exceptions := 0 }
    -- lines 394-409: payload construction, one json.dumps, POST with timeout=10.0
    let call : OutboundCall :=
      { payload := forwardPayload cfg data, timeoutSeconds := 10, serializations := 1 }
    let preEvents := latEvents ++ [.errorCheck false, .outboundPost]
    match upstream with
    | .transportError msg =>
      -- lines 503-516: httpx.HTTPError → record exception, span ERROR, 502.
      -- client_status_code keeps its initial value 500 (line 392) in the metric.
      { httpStatus := 502, detail := some ("Receiver service error: " ++ msg), body := none,
        serverSpan := server0,
        callReceiver := some { cr0 with status := .error msg, exceptions := 1 },
        outbound := some call,
        clientAdds := [1, -1], clientDurStatus := some 500,
        events := preEvents ++ [.respond 502] }
    | .response s bodyJson _bodyBytes =>
      if is2xx s then
        match bodyJson with
        | some j =>
          -- lines 483-501: success path
          { httpStatus := 200, detail := none,
            body := some (.obj [("status", .str "success"),
                                ("sender", .str cfg.serviceName),
                                ("tenant", .str cfg.tenantId),
                                ("receiver_response", j)]),
            serverSpan := server0,
            callReceiver := some
              { cr0 with
                status := .ok,
                attrs := cr0.attrs ++ [("app.receiver.response.status", .num s)] },
            outbound := some call,
            clientAdds := [1, -1], clientDurStatus := some s,
            events := preEvents ++ [.respond 200] }
        | none =>
          -- lines 421-447: 2xx but response.json() fails → record exception,
          -- span ERROR, HTTPException(502), re-raised at lines 517-520.
          { httpStatus := 502, detail := some invalidJsonMsg, body := none,
            serverSpan := server0,
            callReceiver := some
              { cr0 with
                status := .error invalidJsonMsg,
                exceptions := 1,
                attrs := cr0.attrs ++
                  [("error.type", .str "json_decode_error"),
                   ("error.message", .str invalidJsonMsg)] },
            outbound := some call,
            clientAdds := [1, -1], clientDurStatus := some s,
            events := preEvents ++ [.respond 502] }
      else
        -- lines 416-419: raise_for_status raises HTTPStatusError (an
        -- httpx.HTTPError), caught at lines 503-516 → 502.
        { httpStatus := 502,
          detail := some ("Receiver service error: " ++ statusErrorText s), body := none,
          serverSpan := server0,
          callReceiver := some
            { cr0 with status := .error (statusErrorText s), exceptions := 1 },
          outbound := some call,
          clientAdds := [1, -1], clientDurStatus := some s,
          events := preEvents ++ [.respond 502] }

/-- `send_message` of the legacy duplicate `demo-app/sender/app.py` (lines 160-297).
Differences from the `apps/` variant: the success body carries an extra
`duration_seconds` field (hence the `elapsed` input), there are no hand-rolled
client metrics and no explicit `json.dumps` of the payload, and a JSON-decode
failure on a 2xx response falls into the generic `except Exception` arm (lines
281-297) and is surfaced as a 500 "Internal error", not a 502. -/
def sendMessageLegacy (cfg : SenderCfg) (r : Rat) (data : Option J)
    (upstream : UpstreamOutcome) (elapsed : Rat) : SendOutcome :=
  -- lines 166-172: custom attributes on the server span
  let server0 : SpanRec :=
    { name := "POST /send", status := .unset,
      attrs := [("app.endpoint.type", .str "api"), ("app.tenant.id", .str cfg.tenantId)],
      exceptions := 0 }
  -- lines 189-193: artificial latency span, before the error check
  let latEvents : List Ev :=
    if 0 < cfg.latencyMs then [.latencySpan cfg.latencyMs] else []
  -- lines 195-211: simulated error check
  if r < cfg.errorRate then
    { httpStatus := 500, detail := some "Simulated error", body := none,
      serverSpan :=
        { server0 with
          status := .error "Simulated error",
          attrs := server0.attrs ++
            [("error.type", .str "simulated_error"),
             ("error.message", .str "Simulated error for testing")] },
      callReceiver := none, outbound := none,
      clientAdds := [], clientDurStatus := none,
      events := latEvents ++ [.errorCheck true, .respond 500] }
  else
    -- lines 215-219: the call_receiver span and its attributes
    let cr0 : SpanRec :=
      { name := "call_receiver", status := .unset,
        attrs := [("app.tenant.id", .str cfg.tenantId),
                  ("app.request.id", requestIdOf data),
                  ("peer.service", .str "receiver-service")],
        exceptions := 0 }
    -- lines 225-235: payload construction, POST with timeout=10.0
    let call : OutboundCall :=
      { payload := forwardPayload cfg data, timeoutSeconds := 10, serializations := 0 }
    let preEvents := latEvents ++ [.errorCheck false, .outboundPost]
    match upstream with
    | .transportError msg =>
      -- lines 264-280: httpx.HTTPError → record exception, span ERROR, 502
      { httpStatus := 502, detail := some ("Receiver service error: " ++ msg), body := none,
        serverSpan := server0,
        callReceiver := some { cr0 with status := .error msg, exceptions := 1 },
        outbound := some call,
        clientAdds := [], clientDurStatus := none,
        events := preEvents ++ [.respond 502] }
    | .response s bodyJson _bodyBytes =>
      if is2xx s then
        match bodyJson with
        | some j =>
          -- lines 239-262: success path, with duration_seconds in the body
          { httpStatus := 200, detail := none,
            body := some (.obj [("status", .str "success"),
                                ("sender", .str cfg.serviceName),
                                ("tenant", .str cfg.tenantId),
                                ("receiver_response", j),
                                ("duration_seconds", .num elapsed)]),
            serverSpan := server0,
            callReceiver := some
              { cr0 with
                status := .ok,
                attrs := cr0.attrs ++ [("app.receiver.response.status", .num s)] },
            outbound := some call,
            clientAdds := [], clientDurStatus := none,
            events := preEvents ++ [.respond 200] }
        | none =>
          -- line 237: response.json() raises json.JSONDecodeError (a ValueError),
          -- caught only by the generic arm at lines 281-297 → 500 "Internal error"
          { httpStatus := 500,
            detail := some ("Internal error: " ++ jsonDecodeErrText), body := none,
            serverSpan := server0,
            callReceiver := some
              { cr0 with status := .error jsonDecodeErrText, exceptions := 1 },
            outbound := some call,
            clientAdds := [], clientDurStatus := none,
            events := preEvents ++ [.respond 500] }
      else
        -- line 236: raise_for_status → HTTPStatusError, caught at lines 264-280 → 502
        { httpStatus := 502,
          detail := some ("Receiver service error: " ++ statusErrorText s), body := none,
          serverSpan := server0,
          callReceiver := some
            { cr0 with status := .error (statusErrorText s), exceptions := 1 },
          outbound := some call,
          clientAdds := [], clientDurStatus := none,
          events := preEvents ++ [.respond 502] }

/-- Receiver configuration (environment variables of `apps/demo-app/receiver/app.py`). -/
structure ReceiverCfg where
  serviceName : String
  tenantId : String
  errorRate : Rat
  latencyMs : Nat
  processingTimeMs : Nat
deriving Repr

/-- Everything observable about one `POST /process` request handled by
`process_request` of `apps/demo-app/receiver/app.py`. -/
structure ProcessOutcome where
  httpStatus : Nat
  detail : Option String
  body : Option J
  serverSpan : SpanRec
  processSpan : Option SpanRec
  dbSpan : Option SpanRec
  events : List Ev
deriving Repr

/-- `simulate_database_call` of `apps/demo-app/receiver/app.py` (lines 281-308):
returns the synthetic result `{records, status}` and the `database_query` CLIENT
span.  `dbRecords` is the value drawn by `random.randint(1, 10)`. -/
def simulate_database_call (cfg : ReceiverCfg) (dbRecords : Nat) : J × SpanRec :=
  let result : J := .obj [("records", .num dbRecords), ("status", .str "success")]
  (result,
   { name := "database_query", status := .unset,
     attrs := [("db.system", .str "simulated"),
               ("db.operation", .str "select"),
               ("db.name", .str "demo_db"),
               ("app.tenant.id", .str cfg.tenantId),
               ("app.db.records.count", .num dbRecords)],
     exceptions := 0 })

/-- `process_request` of `apps/demo-app/receiver/app.py` (lines 311-430).
Inputs: the configuration, the value of `random.random()`, the JSON request
body, the `random.randint(1, 10)` draw of the simulated database call, and the
elapsed wall-clock time `time.time() - start_time` observed at line 380. -/
def process_request (cfg : ReceiverCfg) (r : Rat) (data : J) (dbRecords : Nat)
    (elapsed : Rat) : ProcessOutcome :=
  -- lines 325-327: payload fields with their defaults
  let request_id : J := (data.get "request_id").getD (.str "unknown")
  let sender : J := (data.get "sender").getD (.str "unknown")
  let tenant_id : J := (data.get "tenant_id").getD (.str cfg.tenantId)
  -- lines 319-332: custom attributes on the server span
  let server0 : SpanRec :=
    { name := "POST /process", status := .unset,
      attrs := [("app.endpoint.type", .str "api"),
                ("app.tenant.id", tenant_id),
                ("app.request.id", request_id),
                ("app.sender.service", sender)],
      exceptions := 0 }
  -- lines 344-348: artificial latency span, before the error check
  let latEvents : List Ev :=
    if 0 < cfg.latencyMs then [.latencySpan cfg.latencyMs] else []
  -- lines 350-364: simulated error check
  if r < cfg.errorRate then
    { httpStatus := 500, detail := some "Simulated processing error", body := none,
      serverSpan :=
        { server0 with
          status := .error "Simulated error",
          attrs := server0.attrs ++
            [("error.type", .str "simulated_error"),
             ("error.message", .str "Simulated error for testing")] },
      processSpan := none, dbSpan := none,
      events := latEvents ++ [.errorCheck true, .respond 500] }
  else
    -- lines 366-410: the process_data span, the database call and the result
    let db := simulate_database_call cfg dbRecords
    let result : J :=
      .obj [("status", .str "processed"),
            ("request_id", request_id),
            ("tenant_id", tenant_id),
            ("sender", sender),
            ("receiver", .str cfg.serviceName),
            ("database_result", db.1),
            ("processing_time_seconds", .num elapsed)]
    { httpStatus := 200, detail := none, body := some result,
      serverSpan := { server0 with status := .ok },
      processSpan := some
        { name := "process_data", status := .ok,
          attrs := [("app.request.id", request_id),
                    ("app.tenant.id", tenant_id),
                    ("app.sender.service", sender),
                    ("app.processing.success", .bool true),
                    ("app.processing.duration_seconds", .num elapsed)],
          exceptions := 0 },
      dbSpan := some db.2,
      events := latEvents ++ [.errorCheck false, .respond 200] }

/-- The five-attribute key used by the middleware for the active-request
up-down counter (`apps/demo-app/sender/app.py` lines 196-221; the receiver's
middleware at lines 171-196 is textually identical). -/
structure AttrKey where
  address : String
  port : Nat
  method : String
  scheme : String
  route : String
deriving DecidableEq, Repr

/-- The parts of the incoming Starlette request read by
`HTTPServerMetricsMiddleware.dispatch`: URL hostname and port (possibly absent),
scheme, method, path, and the raw `content-length` header if present. -/
structure MwRequest where
  hostname : Option String
  port : Option Nat
  scheme : String
  method : String
  path : String
  contentLength : Option String

/-- How the wrapped continuation (`call_next`) resolves: a response with a
status code and a known body size (`none` when neither `response.body` nor
`response.content` yields one), a raised `fastapi.HTTPException` carrying a
status code, or any other raised exception. -/
inductive HandlerOutcome where
  | ok (status : Nat) (bodySize : Option Nat)
  | httpExc (status : Nat) (detail : String)
  | exc (msg : String)
deriving Repr, DecidableEq

/-- Metric emissions of one middleware pass, in program order: up-down-counter
deltas for `http.server.active_requests`, one `http.server.request.duration`
record, and conditional request/response body-size records.  Every record
carries the attribute key; the histogram records also carry the
`http.response.status_code` attribute. -/
inductive MEv where
  | add (delta : Int) (k : AttrKey)
  | dur (k : AttrKey) (status : Nat)
  | reqSize (k : AttrKey) (status : Nat) (n : Int)
  | respSize (k : AttrKey) (status : Nat) (n : Nat)
deriving Repr, DecidableEq

/-- The attribute key the middleware builds at lines 196-201 of the sender
(`server_address = request.url.hostname or SERVICE_NAME`,
`server_port = request.url.port or 8000`, method, scheme, path). -/
def attrKeyOf (svc : String) (req : MwRequest) : AttrKey :=
  { address := req.hostname.getD svc, port := req.port.getD 8000,
    method := req.method, scheme := req.scheme, route := req.path }

/-- Lines 203-209: `int(request.headers.get("content-length", 0))` guarded by
the header's truthiness, with `ValueError` mapped to `None`. -/
def parseContentLength : Option String → Option Int
  | none => none
  | some s => if s = "" then none else s.toInt?

/-- The status code the middleware records (lines 222-242): the response's
status when `call_next` returns, the exception's status code for an
`HTTPException`, and the initial value 500 for any other exception. -/
def recordedStatus : HandlerOutcome → Nat
  | .ok s _ => s
  | .httpExc s _ => s
  | .exc _ => 500

/-- The response body size the middleware determines (lines 230-234): only
available when `call_next` returned a response object. -/
def recordedRespSize : HandlerOutcome → Option Nat
  | .ok _ b => b
  | .httpExc _ _ => none
  | .exc _ => none

/-- The conditional body-size records of the middleware's finally block
(sender lines 271-276): each histogram is recorded only when a positive size
was determined. -/
def sizeEventsOf (k : AttrKey) (status : Nat) (reqBody : Option Int)
    (respBody : Option Nat) : List MEv :=
  (match reqBody with
   | some n => if 0 < n then [MEv.reqSize k status n] else []
   | none => []) ++
  (match respBody with
   | some n => if 0 < n then [MEv.respSize k status n] else []
   | none => [])

/-- `HTTPServerMetricsMiddleware.dispatch` (sender lines 192-276, receiver
lines 167-251, textually identical): returns the ordered list of metric
emissions together with the untouched continuation outcome (the middleware
re-raises exceptions and passes responses through unchanged). -/
def dispatch (svc : String) (req : MwRequest) (outcome : HandlerOutcome) :
    List MEv × HandlerOutcome :=
  let k := attrKeyOf svc req
  let reqBody := parseContentLength req.contentLength
  -- try/except arms (lines 226-242) fix the status; the finally block
  -- (lines 243-276) always decrements and records
  let status := recordedStatus outcome
  let respBody := recordedRespSize outcome
  ([MEv.add 1 k] ++ [MEv.add (-1) k, MEv.dur k status]
     ++ sizeEventsOf k status reqBody respBody,
   outcome)

/-- The ordered deltas applied to the active-request counter entry of key `k`. -/
def addDeltasFor (k : AttrKey) (evs : List MEv) : List Int :=
  evs.filterMap (fun e =>
    match e with
    | .add d k2 => if k2 = k then some d else none
    | _ => none)

/-- The running values of the active-request counter entry of key `k`
(starting from 0) after each emission. -/
def gaugeTrajectory (k : AttrKey) (evs : List MEv) : List Int :=
  ((addDeltasFor k evs).scanl (· + ·) 0).tail

/-- The duration-histogram records among the emissions, as (key, status) pairs. -/
def durRecords (evs : List MEv) : List (AttrKey × Nat) :=
  evs.filterMap (fun e =>
    match e with
    | .dur k s => some (k, s)
    | _ => none)

/-- The subtrace of a handler event list consisting of the artificial-latency
span and the error-rate check, in order. -/
def latencyErrorEvents (evs : List Ev) : List Ev :=
  evs.filter (fun e =>
    match e with
    | .latencySpan _ => true
    | .errorCheck _ => true
    | _ => false)

/-- Did the handler run issue the outbound POST to the receiver? -/
def outboundIssued (evs : List Ev) : Bool :=
  evs.any (fun e =>
    match e with
    | .outboundPost => true
    | _ => false)

theorem addDeltasFor_append (k : AttrKey) (l1 l2 : List MEv) :
    addDeltasFor k (l1 ++ l2) = addDeltasFor k l1 ++ addDeltasFor k l2 :=
  List.filterMap_append l1 l2 _

theorem durRecords_append (l1 l2 : List MEv) :
    durRecords (l1 ++ l2) = durRecords l1 ++ durRecords l2 :=
  List.filterMap_append l1 l2 _

theorem addDeltasFor_sizeEventsOf (k k2 : AttrKey) (st : Nat) (a : Option Int)
    (b : Option Nat) : addDeltasFor k (sizeEventsOf k2 st a b) = [] := by
  rcases a with _ | n <;> rcases b with _ | m <;>
    simp [sizeEventsOf, addDeltasFor] <;> split <;> simp [addDeltasFor]

theorem durRecords_sizeEventsOf (k2 : AttrKey) (st : Nat) (a : Option Int)
    (b : Option Nat) : durRecords (sizeEventsOf k2 st a b) = [] := by
  rcases a with _ | n <;> rcases b with _ | m <;>
    simp [sizeEventsOf, durRecords] <;> split <;> simp [durRecords]

/-- Claim C1: for every `POST /send` request in which the outbound call to the
Receiver returns a 2xx status but the response body fails to parse as JSON,
the Sender responds with HTTP status 502 (not 500), records the parse
exception on the `call_receiver` span, and sets that span's status to ERROR. -/
theorem sender_malformed_2xx_gives_502 (cfg : SenderCfg) (r : Rat) (data : Option J)
    (s bodyBytes : Nat) (hr : ¬ r < cfg.errorRate) (h2 : is2xx s = true) :
    (sendMessage cfg r data (.response s none bodyBytes)).httpStatus = 502 ∧
    (sendMessage cfg r data (.response s none bodyBytes)).httpStatus ≠ 500 ∧
    spanExcCount (sendMessage cfg r data (.response s none bodyBytes)).callReceiver = 1 ∧
    spanIsError (sendMessage cfg r data (.response s none bodyBytes)).callReceiver
      = true := by
  refine ⟨?_, ?_, ?_, ?_⟩ <;>
    simp [sendMessage, hr, h2, spanExcCount, spanIsError, SpanStatus.isErr]

/-- Witness for C1 at a concrete input: error rate 0, draw 0, upstream 200
with unparseable body. -/
theorem sender_malformed_2xx_gives_502_w :
    (¬ (0 : Rat) < (0 : Rat)) ∧ is2xx 200 = true ∧
    (sendMessage ⟨"sender-service", "default", 0, 0⟩ 0 none
        (.response 200 none 0)).httpStatus = 502 ∧
    spanIsError (sendMessage ⟨"sender-service", "default", 0, 0⟩ 0 none
        (.response 200 none 0)).callReceiver = true :=
  ⟨by decide, by decide,
   (sender_malformed_2xx_gives_502 ⟨"sender-service", "default", 0, 0⟩ 0 none 200 0
      (by decide) (by decide)).1,
   (sender_malformed_2xx_gives_502 ⟨"sender-service", "default", 0, 0⟩ 0 none 200 0
      (by decide) (by decide)).2.2.2⟩

/-- Claim C2: for every `POST /send` request whose outbound call fails at the
transport level or returns a non-2xx status, the Sender records the exception
on the `call_receiver` span, sets that span's status to ERROR, and responds 502
with a detail message indicating a receiver/upstream error. -/
theorem sender_upstream_failure_gives_502 (cfg : SenderCfg) (r : Rat)
    (data : Option J) (hr : ¬ r < cfg.errorRate) :
    (∀ msg : String,
      (sendMessage cfg r data (.transportError msg)).httpStatus = 502 ∧
      spanExcCount (sendMessage cfg r data (.transportError msg)).callReceiver = 1 ∧
      spanIsError (sendMessage cfg r data (.transportError msg)).callReceiver = true ∧
      (sendMessage cfg r data (.transportError msg)).detail
        = some ("Receiver service error: " ++ msg)) ∧
    (∀ (s : Nat) (bj : Option J) (bodyBytes : Nat), is2xx s = false →
      (sendMessage cfg r data (.response s bj bodyBytes)).httpStatus = 502 ∧
      spanExcCount (sendMessage cfg r data (.response s bj bodyBytes)).callReceiver = 1 ∧
      spanIsError (sendMessage cfg r data (.response s bj bodyBytes)).callReceiver
        = true ∧
      ∃ m, (sendMessage cfg r data (.response s bj bodyBytes)).detail
        = some ("Receiver service error: " ++ m)) := by
  constructor
  · intro msg
    refine ⟨?_, ?_, ?_, ?_⟩ <;>
      simp [sendMessage, hr, spanExcCount, spanIsError, SpanStatus.isErr]
  · intro s bj bodyBytes h2
    refine ⟨?_, ?_, ?_, ⟨statusErrorText s, ?_⟩⟩ <;>
      simp [sendMessage, hr, h2, spanExcCount, spanIsError, SpanStatus.isErr]

/-- Witness for C2 at concrete inputs: a connection failure and a plain 500
upstream status. -/
theorem sender_upstream_failure_gives_502_w :
    (¬ (0 : Rat) < (0 : Rat)) ∧ is2xx 500 = false ∧
    (sendMessage ⟨"sender-service", "default", 0, 0⟩ 0 none
        (.transportError "All connection attempts failed")).httpStatus = 502 ∧
    (sendMessage ⟨"sender-service", "default", 0, 0⟩ 0 none
        (.transportError "All connection attempts failed")).detail
      = some ("Receiver service error: " ++ "All connection attempts failed") ∧
    (sendMessage ⟨"sender-service", "default", 0, 0⟩ 0 none
        (.response 500 none 0)).httpStatus = 502 :=
  ⟨by decide, by decide,
   ((sender_upstream_failure_gives_502 ⟨"sender-service", "default", 0, 0⟩ 0 none
      (by decide)).1 "All connection attempts failed").1,
   ((sender_upstream_failure_gives_502 ⟨"sender-service", "default", 0, 0⟩ 0 none
      (by decide)).1 "All connection attempts failed").2.2.2,
   ((sender_upstream_failure_gives_502 ⟨"sender-service", "default", 0, 0⟩ 0 none
      (by decide)).2 500 none 0 (by decide)).1⟩

/-- Claim C3: when the configured error rate is 1.0, every `POST /send` and
every `POST /process` request resolves with HTTP status 500, the server span is
marked ERROR with message "Simulated error" (detail "Simulated error" resp.
"Simulated processing error"), and in the Sender this happens before any
outbound network call is issued. -/
theorem error_rate_one_forces_500 (cfg : SenderCfg) (rcfg : ReceiverCfg)
    (r r2 : Rat) (data : Option J) (upstream : UpstreamOutcome) (rdata : J)
    (dbRecords : Nat) (elapsed : Rat)
    (hc : cfg.errorRate = 1) (hrc : rcfg.errorRate = 1)
    (h0 : 0 ≤ r) (h1 : r < 1) (g0 : 0 ≤ r2) (g1 : r2 < 1) :
    (sendMessage cfg r data upstream).httpStatus = 500 ∧
    (sendMessage cfg r data upstream).serverSpan.status = .error "Simulated error" ∧
    (sendMessage cfg r data upstream).detail = some "Simulated error" ∧
    (sendMessage cfg r data upstream).outbound = none ∧
    outboundIssued (sendMessage cfg r data upstream).events = false ∧
    (process_request rcfg r2 rdata dbRecords elapsed).httpStatus = 500 ∧
    (process_request rcfg r2 rdata dbRecords elapsed).serverSpan.status
      = .error "Simulated error" ∧
    (process_request rcfg r2 rdata dbRecords elapsed).detail
      = some "Simulated processing error" := by
  have hs : r < cfg.errorRate := by rw [hc]; exact h1
  have hs2 : r2 < rcfg.errorRate := by rw [hrc]; exact g1
  refine ⟨?_, ?_, ?_, ?_, ?_, ?_, ?_, ?_⟩ <;>
    simp [sendMessage, process_request, hs, hs2, outboundIssued] <;>
    split <;> simp

/-- Witness for C3 at a concrete input: error rate 1, draw 0, for both apps. -/
theorem error_rate_one_forces_500_w :
    (SenderCfg.mk "sender-service" "default" 1 0).errorRate = 1 ∧
    (ReceiverCfg.mk "receiver-service" "default" 1 0 100).errorRate = 1 ∧
    (0 : Rat) ≤ 0 ∧ (0 : Rat) < 1 ∧
    (sendMessage ⟨"sender-service", "default", 1, 0⟩ 0 none
        (.transportError "unused")).httpStatus = 500 ∧
    (sendMessage ⟨"sender-service", "default", 1, 0⟩ 0 none
        (.transportError "unused")).outbound = none ∧
    (process_request ⟨"receiver-service", "default", 1, 0, 100⟩ 0 (.obj []) 3
        0).httpStatus = 500 :=
  ⟨rfl, rfl, by decide, by decide,
   (error_rate_one_forces_500 ⟨"sender-service", "default", 1, 0⟩
      ⟨"receiver-service", "default", 1, 0, 100⟩ 0 0 none (.transportError "unused")
      (.obj []) 3 0 rfl rfl (by decide) (by decide) (by decide) (by decide)).1,
   (error_rate_one_forces_500 ⟨"sender-service", "default", 1, 0⟩
      ⟨"receiver-service", "default", 1, 0, 100⟩ 0 0 none (.transportError "unused")
      (.obj []) 3 0 rfl rfl (by decide) (by decide) (by decide) (by decide)).2.2.2.1,
   (error_rate_one_forces_500 ⟨"sender-service", "default", 1, 0⟩
      ⟨"receiver-service", "default", 1, 0, 100⟩ 0 0 none (.transportError "unused")
      (.obj []) 3 0 rfl rfl (by decide) (by decide) (by decide) (by decide)).2.2.2.2.2.1⟩

/-- Claim C4: for every request passing through the telemetry middleware, the
active-request gauge is incremented exactly once at entry and decremented
exactly once at exit with the identical five-attribute key, including when the
wrapped handler raises; consequently the gauge for any key never goes negative
and returns to its pre-request value after every request. -/
theorem mw_active_gauge_balanced (svc : String) (req : MwRequest)
    (outcome : HandlerOutcome) :
    (∀ k : AttrKey,
      addDeltasFor k (dispatch svc req outcome).1
        = if k = attrKeyOf svc req then [1, -1] else []) ∧
    (∀ k : AttrKey, (addDeltasFor k (dispatch svc req outcome).1).sum = 0) ∧
    (∀ k : AttrKey, ∀ v ∈ gaugeTrajectory k (dispatch svc req outcome).1, 0 ≤ v) := by
  have hsplit : (dispatch svc req outcome).1
      = [MEv.add 1 (attrKeyOf svc req)]
        ++ [MEv.add (-1) (attrKeyOf svc req),
            MEv.dur (attrKeyOf svc req) (recordedStatus outcome)]
        ++ sizeEventsOf (attrKeyOf svc req) (recordedStatus outcome)
            (parseContentLength req.contentLength) (recordedRespSize outcome) := rfl
  have hmain : ∀ k : AttrKey,
      addDeltasFor k (dispatch svc req outcome).1
        = if k = attrKeyOf svc req then [1, -1] else [] := by
    intro k
    rw [hsplit, addDeltasFor_append, addDeltasFor_append, addDeltasFor_sizeEventsOf]
    by_cases hk : k = attrKeyOf svc req
    · simp [addDeltasFor, hk]
    · simp [addDeltasFor, hk, Ne.symm hk]
  refine ⟨hmain, ?_, ?_⟩
  · intro k
    rw [hmain k]
    split <;> simp
  · intro k v hv
    simp only [gaugeTrajectory, hmain k] at hv
    by_cases hk : k = attrKeyOf svc req
    · simp [hk, List.scanl] at hv
      rcases hv with h | h <;> omega
    · simp [hk, List.scanl] at hv

/-- Claim C5: for every request reaching a middleware-wrapped handler, the
middleware emits exactly one duration histogram record, and its
`http.response.status_code` attribute equals the actual HTTP response status:
the continuation's status when it returns, the exception's status code for an
`HTTPException`, and 500 for any other exception; the outcome itself passes
through unchanged. -/
theorem mw_single_duration_actual_status (svc : String) (req : MwRequest)
    (outcome : HandlerOutcome) :
    durRecords (dispatch svc req outcome).1
      = [(attrKeyOf svc req, recordedStatus outcome)] ∧
    (∀ (s : Nat) (b : Option Nat), recordedStatus (.ok s b) = s) ∧
    (∀ (s : Nat) (d : String), recordedStatus (.httpExc s d) = s) ∧
    (∀ m : String, recordedStatus (.exc m) = 500) ∧
    (dispatch svc req outcome).2 = outcome := by
  refine ⟨?_, fun s b => rfl, fun s d => rfl, fun m => rfl, rfl⟩
  have hsplit : (dispatch svc req outcome).1
      = [MEv.add 1 (attrKeyOf svc req)]
        ++ [MEv.add (-1) (attrKeyOf svc req),
            MEv.dur (attrKeyOf svc req) (recordedStatus outcome)]
        ++ sizeEventsOf (attrKeyOf svc req) (recordedStatus outcome)
            (parseContentLength req.contentLength) (recordedRespSize outcome) := rfl
  rw [hsplit, durRecords_append, durRecords_append, durRecords_sizeEventsOf]
  simp [durRecords]

/-- Claim C6 (amended): in both duplicated `/send` handler variants the
artificial-latency delay is applied first and the error-rate check is drawn
after it — the order is the same in the two variants, and the design's fixed
latency-then-error order matches the more complete (`apps/`) variant. -/
theorem latency_then_error_in_both_variants (cfg : SenderCfg) (r : Rat)
    (data : Option J) (upstream : UpstreamOutcome) (elapsed : Rat) :
    latencyErrorEvents (sendMessage cfg r data upstream).events
      = latencyErrorEvents (sendMessageLegacy cfg r data upstream elapsed).events ∧
    latencyErrorEvents (sendMessage cfg r data upstream).events
      = (if 0 < cfg.latencyMs then [Ev.latencySpan cfg.latencyMs] else [])
        ++ [Ev.errorCheck (decide (r < cfg.errorRate))] := by
  by_cases hr : r < cfg.errorRate
  · constructor <;>
      simp [sendMessage, sendMessageLegacy, latencyErrorEvents, hr,
        List.filter_append] <;>
      (try (split <;> simp))
  · rcases upstream with msg | ⟨s, bj, bytes⟩
    · constructor <;>
        simp [sendMessage, sendMessageLegacy, latencyErrorEvents, hr,
          List.filter_append] <;>
        (try (split <;> simp))
    · rcases bj with _ | j <;> by_cases h2 : is2xx s = true <;> constructor <;>
        simp [sendMessage, sendMessageLegacy, latencyErrorEvents, hr, h2,
          List.filter_append] <;>
        (try (split <;> simp))

/-- Claim C6 counterexample: at a concrete configuration (latency 5 ms, error
rate 1, draw 0) the two duplicated `/send` variants produce the identical
latency/error-check order — latency first, then the error check — so the order
does not differ between the two variants as the claim states. -/
theorem variants_order_identical_at_concrete :
    latencyErrorEvents (sendMessage ⟨"sender-service", "default", 1, 5⟩ 0 none
        (.transportError "connect failed")).events
      = [Ev.latencySpan 5, Ev.errorCheck true] ∧
    latencyErrorEvents (sendMessageLegacy ⟨"sender-service", "default", 1, 5⟩ 0 none
        (.transportError "connect failed") 0).events
      = [Ev.latencySpan 5, Ev.errorCheck true] :=
  ⟨rfl, rfl⟩

/-- Claim C7: when the configured error rate is 0.0 and the Receiver returns a
2xx response with a parseable JSON body, every `POST /send` request resolves
with HTTP status 200, the `call_receiver` span is marked OK, and the response
body carries the decoded upstream result under `receiver_response`. -/
theorem sender_success_path (cfg : SenderCfg) (r : Rat) (data : Option J)
    (s bodyBytes : Nat) (j : J)
    (hz : cfg.errorRate = 0) (h0 : 0 ≤ r) (h2 : is2xx s = true) :
    (sendMessage cfg r data (.response s (some j) bodyBytes)).httpStatus = 200 ∧
    spanIsOk (sendMessage cfg r data (.response s (some j) bodyBytes)).callReceiver
      = true ∧
    ((sendMessage cfg r data (.response s (some j) bodyBytes)).body.getD .null).get
      "receiver_response" = some j ∧
    (sendMessage cfg r data (.response s (some j) bodyBytes)).detail = none := by
  have hr : ¬ r < cfg.errorRate := by rw [hz]; exact not_lt.mpr h0
  refine ⟨?_, ?_, ?_, ?_⟩ <;>
    simp [sendMessage, hr, h2, spanIsOk, SpanStatus.isOk, J.get]

/-- Witness for C7 at a concrete input: error rate 0, draw 0, upstream 200 with
body `{"status": "processed"}`. -/
theorem sender_success_path_w :
    (SenderCfg.mk "sender-service" "default" 0 0).errorRate = 0 ∧
    (0 : Rat) ≤ 0 ∧ is2xx 200 = true ∧
    (sendMessage ⟨"sender-service", "default", 0, 0⟩ 0 none
        (.response 200 (some (.obj [("status", .str "processed")])) 25)).httpStatus
      = 200 ∧
    ((sendMessage ⟨"sender-service", "default", 0, 0⟩ 0 none
        (.response 200 (some (.obj [("status", .str "processed")])) 25)).body.getD
      .null).get "receiver_response" = some (.obj [("status", .str "processed")]) :=
  ⟨rfl, by decide, by decide,
   (sender_success_path ⟨"sender-service", "default", 0, 0⟩ 0 none 200 25
      (.obj [("status", .str "processed")]) rfl (by decide) (by decide)).1,
   (sender_success_path ⟨"sender-service", "default", 0, 0⟩ 0 none 200 25
      (.obj [("status", .str "processed")]) rfl (by decide) (by decide)).2.2.1⟩

/-- Claim C8: every `POST /process` request that passes the error-injection
check and completes without exception returns HTTP status 200 with a result
containing exactly the fields status ("processed"), request_id, tenant_id,
sender, receiver, database_result and processing_time_seconds, after marking
both the `process_data` span and the server span OK. -/
theorem receiver_success_envelope (cfg : ReceiverCfg) (r : Rat) (data : J)
    (dbRecords : Nat) (elapsed : Rat) (hr : ¬ r < cfg.errorRate) :
    (process_request cfg r data dbRecords elapsed).httpStatus = 200 ∧
    (process_request cfg r data dbRecords elapsed).body
      = some (.obj [("status", .str "processed"),
                    ("request_id", (data.get "request_id").getD (.str "unknown")),
                    ("tenant_id", (data.get "tenant_id").getD (.str cfg.tenantId)),
                    ("sender", (data.get "sender").getD (.str "unknown")),
                    ("receiver", .str cfg.serviceName),
                    ("database_result", .obj [("records", .num dbRecords),
                                              ("status", .str "success")]),
                    ("processing_time_seconds", .num elapsed)]) ∧
    ((process_request cfg r data dbRecords elapsed).body.getD .null).keys
      = ["status", "request_id", "tenant_id", "sender", "receiver",
         "database_result", "processing_time_seconds"] ∧
    spanIsOk (process_request cfg r data dbRecords elapsed).processSpan = true ∧
    (process_request cfg r data dbRecords elapsed).serverSpan.status = .ok ∧
    (process_request cfg r data dbRecords elapsed).detail = none := by
  refine ⟨?_, ?_, ?_, ?_, ?_, ?_⟩ <;>
    simp [process_request, simulate_database_call, hr, spanIsOk, SpanStatus.isOk,
      J.keys]

/-- Witness for C8 at a concrete input: error rate 0, draw 0, a full payload. -/
theorem receiver_success_envelope_w :
    (¬ (0 : Rat) < (0 : Rat)) ∧
    (process_request ⟨"receiver-service", "default", 0, 0, 100⟩ 0
        (.obj [("request_id", .str "req-1"), ("tenant_id", .str "tenant-a"),
               ("sender", .str "sender-service")]) 4 1).httpStatus = 200 ∧
    ((process_request ⟨"receiver-service", "default", 0, 0, 100⟩ 0
        (.obj [("request_id", .str "req-1"), ("tenant_id", .str "tenant-a"),
               ("sender", .str "sender-service")]) 4 1).body.getD .null).keys
      = ["status", "request_id", "tenant_id", "sender", "receiver",
         "database_result", "processing_time_seconds"] :=
  ⟨by decide,
   (receiver_success_envelope ⟨"receiver-service", "default", 0, 0, 100⟩ 0
      (.obj [("request_id", .str "req-1"), ("tenant_id", .str "tenant-a"),
             ("sender", .str "sender-service")]) 4 1 (by decide)).1,
   (receiver_success_envelope ⟨"receiver-service", "default", 0, 0, 100⟩ 0
      (.obj [("request_id", .str "req-1"), ("tenant_id", .str "tenant-a"),
             ("sender", .str "sender-service")]) 4 1 (by decide)).2.2.1⟩

/-- Claim C9: every `POST /send` request that reaches the forwarding step
issues the outbound call with the payload constructed as exactly
`{request_id, tenant_id, sender, data}`, serialized once, and with a bounded
timeout of 10 time units. -/
theorem forwarding_payload_exact (cfg : SenderCfg) (r : Rat) (data : Option J)
    (upstream : UpstreamOutcome) (hr : ¬ r < cfg.errorRate) :
    (sendMessage cfg r data upstream).outbound
      = some { payload := forwardPayload cfg data, timeoutSeconds := 10,
               serializations := 1 } ∧
    forwardPayload cfg data
      = .obj [("request_id", requestIdOf data),
              ("tenant_id", .str cfg.tenantId),
              ("sender", .str cfg.serviceName),
              ("data", data.getD (.obj []))] := by
  refine ⟨?_, rfl⟩
  rcases upstream with msg | ⟨s, bj, bytes⟩
  · simp [sendMessage, hr]
  · rcases bj with _ | j <;> by_cases h2 : is2xx s = true <;>
      simp [sendMessage, hr, h2]

/-- Witness for C9 at a concrete input: error rate 0, draw 0, a small body. -/
theorem forwarding_payload_exact_w :
    (¬ (0 : Rat) < (0 : Rat)) ∧
    (sendMessage ⟨"sender-service", "default", 0, 0⟩ 0
        (some (.obj [("request_id", .str "req-1")]))
        (.response 200 (some .null) 4)).outbound
      = some { payload := forwardPayload ⟨"sender-service", "default", 0, 0⟩
                 (some (.obj [("request_id", .str "req-1")])),
               timeoutSeconds := 10, serializations := 1 } :=
  ⟨by decide,
   (forwarding_payload_exact ⟨"sender-service", "default", 0, 0⟩ 0
      (some (.obj [("request_id", .str "req-1")])) (.response 200 (some .null) 4)
      (by decide)).1⟩

/-- Claim C10 counterexample: a `POST /send` request whose body is present but
lacks `request_id` (here `{"message": "hello"}`) gets request_id "unknown",
yet the forwarded `data` field is the provided body, not `{}` — refuting the
claim's assertion that such requests forward `data` `{}`. -/
theorem send_body_without_request_id_keeps_data :
    ((sendMessage ⟨"sender-service", "default", 0, 0⟩ 0
        (some (.obj [("message", .str "hello")]))
        (.response 200 (some .null) 4)).outbound.map
      (fun c => c.payload.get "request_id"))
      = some (some (.str "unknown")) ∧
    ((sendMessage ⟨"sender-service", "default", 0, 0⟩ 0
        (some (.obj [("message", .str "hello")]))
        (.response 200 (some .null) 4)).outbound.map
      (fun c => c.payload.get "data"))
      = some (some (.obj [("message", .str "hello")])) ∧
    (J.obj [("message", .str "hello")]) ≠ (J.obj []) := by
  refine ⟨rfl, rfl, ?_⟩
  simp

/-- Claim C10 (amended): for a `POST /send` request with no body, the Sender
uses request_id "unknown" and forwards data `{}`; for a body lacking
`request_id` it uses request_id "unknown" and forwards the provided body
unchanged as `data`; for a `POST /process` body lacking `tenant_id` the
Receiver substitutes its own configured tenant id (not "unknown"), while a
missing `request_id` or `sender` defaults to "unknown". -/
theorem payload_field_defaults (cfg : SenderCfg) (rcfg : ReceiverCfg) (d rdata : J)
    (r : Rat) (dbRecords : Nat) (elapsed : Rat) (hr : ¬ r < rcfg.errorRate) :
    forwardPayload cfg none
      = .obj [("request_id", .str "unknown"), ("tenant_id", .str cfg.tenantId),
              ("sender", .str cfg.serviceName), ("data", .obj [])] ∧
    (d.get "request_id" = none →
      (forwardPayload cfg (some d)).get "request_id" = some (.str "unknown") ∧
      (forwardPayload cfg (some d)).get "data" = some d) ∧
    (rdata.get "tenant_id" = none →
      ((process_request rcfg r rdata dbRecords elapsed).body.getD .null).get
        "tenant_id" = some (.str rcfg.tenantId)) ∧
    (rdata.get "request_id" = none →
      ((process_request rcfg r rdata dbRecords elapsed).body.getD .null).get
        "request_id" = some (.str "unknown")) ∧
    (rdata.get "sender" = none →
      ((process_request rcfg r rdata dbRecords elapsed).body.getD .null).get
        "sender" = some (.str "unknown")) := by
  have hbody : (process_request rcfg r rdata dbRecords elapsed).body
      = some (.obj [("status", .str "processed"),
                    ("request_id", (rdata.get "request_id").getD (.str "unknown")),
                    ("tenant_id", (rdata.get "tenant_id").getD (.str rcfg.tenantId)),
                    ("sender", (rdata.get "sender").getD (.str "unknown")),
                    ("receiver", .str rcfg.serviceName),
                    ("database_result", .obj [("records", .num dbRecords),
                                              ("status", .str "success")]),
                    ("processing_time_seconds", .num elapsed)]) := by
    simp [process_request, simulate_database_call, hr]
  refine ⟨rfl, fun h => ⟨?_, rfl⟩, fun h => ?_, fun h => ?_, fun h => ?_⟩
  · have h1 : (forwardPayload cfg (some d)).get "request_id"
        = some (requestIdOf (some d)) := rfl
    rw [h1]
    simp [requestIdOf, h]
  · rw [hbody]
    show some ((rdata.get "tenant_id").getD (.str rcfg.tenantId))
      = some (.str rcfg.tenantId)
    rw [h]
    rfl
  · rw [hbody]
    show some ((rdata.get "request_id").getD (.str "unknown"))
      = some (.str "unknown")
    rw [h]
    rfl
  · rw [hbody]
    show some ((rdata.get "sender").getD (.str "unknown"))
      = some (.str "unknown")
    rw [h]
    rfl

/-- Witness for C10 (amended) at concrete inputs: a sender body without
`request_id` and a receiver body missing all three fields. -/
theorem payload_field_defaults_w :
    (¬ (0 : Rat) < (0 : Rat)) ∧
    (J.obj [("message", .str "hi")]).get "request_id" = none ∧
    (J.obj []).get "tenant_id" = none ∧
    (forwardPayload ⟨"sender-service", "default", 0, 0⟩
        (some (.obj [("message", .str "hi")]))).get "data"
      = some (.obj [("message", .str "hi")]) ∧
    ((process_request ⟨"receiver-service", "tenant-b", 0, 0, 100⟩ 0 (.obj []) 2
        1).body.getD .null).get "tenant_id" = some (.str "tenant-b") ∧
    ((process_request ⟨"receiver-service", "tenant-b", 0, 0, 100⟩ 0 (.obj []) 2
        1).body.getD .null).get "sender" = some (.str "unknown") :=
  ⟨by decide, rfl, rfl,
   ((payload_field_defaults ⟨"sender-service", "default", 0, 0⟩
      ⟨"receiver-service", "tenant-b", 0, 0, 100⟩ (.obj [("message", .str "hi")])
      (.obj []) 0 2 1 (by decide)).2.1 rfl).2,
   ((payload_field_defaults ⟨"sender-service", "default", 0, 0⟩
      ⟨"receiver-service", "tenant-b", 0, 0, 100⟩ (.obj [("message", .str "hi")])
      (.obj []) 0 2 1 (by decide)).2.2.1 rfl),
   ((payload_field_defaults ⟨"sender-service", "default", 0, 0⟩
      ⟨"receiver-service", "tenant-b", 0, 0, 100⟩ (.obj [("message", .str "hi")])
      (.obj []) 0 2 1 (by decide)).2.2.2.2 rfl)⟩
